import Mathlib

/-!
Verification of the query-interpretation and response-synthesis pipeline of the
Demo-Starter-Smart-Search repository.  The definitions below are a shallow
embedding of `src/backend/services/query_processor.py` and
`src/backend/services/database_service.py`: Python strings are `List Char`,
Python `in` on strings is `occursIn`, `str.lower()` is `pyLower`, the two
`re.findall` calls are modelled by explicit scanners (`teamFindall`,
`dateFindall`) for their concrete patterns, numbers are `ℚ`, `datetime`
values are `PyDateTime`, and the external collaborators (database gateway,
S3 client, JSON decoder, the ambient clock) are explicit parameters.
-/

set_option maxRecDepth 10000

set_option linter.unusedVariables false

/- Batteries marks the arithmetic on `Rat` `@[irreducible]`; re-enable
unfolding inside this file so that the concrete scenario computations
(averages, fixed-point formatting) reduce definitionally. -/

attribute [local semireducible] Rat.add Rat.mul Rat.sub Rat.inv

/-- Boolean test that the first list is a leading segment of the second.
Building block for the model of Python substring search. -/
def beginsWith : List Char → List Char → Bool
  | [], _ => true
  | _ :: _, [] => false
  | a :: as, b :: bs => a == b && beginsWith as bs

/-- Boolean test that `n` occurs contiguously inside the second list; models
the Python `in` operator on strings (`needle in haystack`). -/
def occursIn (n : List Char) : List Char → Bool
  | [] => beginsWith n []
  | c :: cs => beginsWith n (c :: cs) || occursIn n cs

/-- ASCII uppercase test, the `[A-Z]` character class of the team regex. -/
def isUpperAZ (c : Char) : Bool := 65 ≤ c.toNat && c.toNat ≤ 90

/-- ASCII lowercase test, the `[a-z]` character class of the team regex. -/
def isLowerAZ (c : Char) : Bool := 97 ≤ c.toNat && c.toNat ≤ 122

/-- Word-character test for the `\b` anchors of the two regexes
(`[A-Za-z0-9_]` on the ASCII questions handled here). -/
def isWordChar (c : Char) : Bool := c.isAlphanum || c == '_'

/-- Lower-casing of one character; models `str.lower()` on the ASCII range. -/
def charLower (c : Char) : Char :=
  if 65 ≤ c.toNat && c.toNat ≤ 90 then Char.ofNat (c.toNat + 32) else c

/-- Models Python `question.lower()`. -/
def pyLower (s : List Char) : List Char := s.map charLower

/-- Maximal leading run of `[a-z]` characters and the remainder; models the
greedy `[a-z]+` pieces of the team regex (no backtracking can ever shorten
these runs, since each is followed by a non-`[a-z]` requirement). -/
def lowerRun : List Char → List Char × List Char
  | [] => ([], [])
  | c :: cs =>
    if isLowerAZ c then
      let p := lowerRun cs
      (c :: p.1, p.2)
    else ([], c :: cs)

/-- Trailing `\b` anchor directly after a word character: the rest of the
input must be empty or start with a non-word character. -/
def boundaryAfterWord : List Char → Bool
  | [] => true
  | c :: _ => !(isWordChar c)

/-- One attempted match of `(LSU|Tigers|[A-Z][a-z]+ [A-Z][a-z]+)\b` at the
head of `s` (the leading `\b` is enforced by the scanner).  Alternatives are
tried left to right as `re` does; on success the captured group and the
remaining input are returned. -/
def teamMatchAt (s : List Char) : Option (List Char × List Char) :=
  if beginsWith "LSU".toList s && boundaryAfterWord (s.drop 3) then
    some ("LSU".toList, s.drop 3)
  else if beginsWith "Tigers".toList s && boundaryAfterWord (s.drop 6) then
    some ("Tigers".toList, s.drop 6)
  else
    match s with
    | [] => none
    | c :: cs =>
      if isUpperAZ c then
        let p1 := lowerRun cs
        if p1.1.isEmpty then none
        else
          match p1.2 with
          | ' ' :: rest1 =>
            match rest1 with
            | c2 :: rest2 =>
              if isUpperAZ c2 then
                let p2 := lowerRun rest2
                if p2.1.isEmpty then none
                else if boundaryAfterWord p2.2 then
                  some (c :: p1.1 ++ ' ' :: c2 :: p2.1, p2.2)
                else none
              else none
            | [] => none
          | _ => none
      else none

/-- Fuel-indexed left-to-right scan implementing `re.findall` for the team
pattern: try a match at every position where the leading `\b` can hold
(tracked through `prevW`, whether the previous character was a word
character), and resume after the end of each non-overlapping match. -/
def teamScanAux : ℕ → Bool → List Char → List (List Char)
  | 0, _, _ => []
  | _ + 1, _, [] => []
  | fuel + 1, prevW, c :: cs =>
    if prevW then teamScanAux fuel (isWordChar c) cs
    else
      match teamMatchAt (c :: cs) with
      | some p => p.1 :: teamScanAux fuel true p.2
      | none => teamScanAux fuel (isWordChar c) cs

/-- Models `re.findall(r"\b(LSU|Tigers|[A-Z][a-z]+ [A-Z][a-z]+)\b", s)`. -/
def teamFindall (s : List Char) : List (List Char) := teamScanAux (s.length + 1) false s

/-- One `(\d{1,2})/` piece of the date regex: the greedy two-digit try first,
falling back to one digit, each followed by the literal slash (which is
consumed).  Backtracking across pieces never helps because a shortened digit
run leaves a digit where the slash must be. -/
def digitsSlash (s : List Char) : Option (List Char × List Char) :=
  match s with
  | a :: b :: c :: rest =>
    if a.isDigit && b.isDigit && c == '/' then some ([a, b], rest)
    else if a.isDigit && b == '/' then some ([a], c :: rest)
    else none
  | a :: b :: [] => if a.isDigit && b == '/' then some ([a], []) else none
  | _ => none

/-- The final `(\d{4})\b` piece of the date regex. -/
def fourDigits (s : List Char) : Option (List Char × List Char) :=
  match s with
  | a :: b :: c :: d :: rest =>
    if a.isDigit && b.isDigit && c.isDigit && d.isDigit && boundaryAfterWord rest then
      some ([a, b, c, d], rest)
    else none
  | _ => none

/-- One attempted match of `(\d{1,2})/(\d{1,2})/(\d{4})\b` at the head of the
input (the leading `\b` is enforced by the scanner); returns the three
captured groups and the remaining input. -/
def dateMatchAt (s : List Char) : Option ((List Char × List Char × List Char) × List Char) :=
  match digitsSlash s with
  | none => none
  | some (g1, r1) =>
    match digitsSlash r1 with
    | none => none
    | some (g2, r2) =>
      match fourDigits r2 with
      | none => none
      | some (g3, r3) => some ((g1, g2, g3), r3)

/-- Fuel-indexed scan implementing `re.findall` for the date pattern. -/
def dateScanAux : ℕ → Bool → List Char → List (List Char × List Char × List Char)
  | 0, _, _ => []
  | _ + 1, _, [] => []
  | fuel + 1, prevW, c :: cs =>
    if prevW then dateScanAux fuel (isWordChar c) cs
    else
      match dateMatchAt (c :: cs) with
      | some p => p.1 :: dateScanAux fuel true p.2
      | none => dateScanAux fuel (isWordChar c) cs

/-- Models `re.findall(r"\b(\d{1,2})/(\d{1,2})/(\d{4})\b", s)`. -/
def dateFindall (s : List Char) : List (List Char × List Char × List Char) :=
  dateScanAux (s.length + 1) false s

/-- Decimal digits of `n`, most significant first, with explicit fuel (the
fuel `n + 1` always suffices). -/
def natDigitsAux : ℕ → ℕ → List Char
  | 0, _ => []
  | f + 1, n =>
    if n < 10 then [Char.ofNat (48 + n)]
    else natDigitsAux f (n / 10) ++ [Char.ofNat (48 + n % 10)]

/-- Decimal rendering of a natural number; models Python `str(n)` /
`f"{n}"` for the non-negative integers that reach it. -/
def natStr (n : ℕ) : List Char := natDigitsAux (n + 1) n

/-- Character class of the interpolated numbers: digits, minus sign and
decimal point.  Everything a formatted number can contain, and nothing the
fixed sentence templates' marker phrases contain. -/
def numChar (c : Char) : Bool := c.isDigit || c == '.' || c == '-'

/-- Floor of a rational, computably (`Int.fdiv` is floor division). -/
def floorQ (q : ℚ) : ℤ := q.num.fdiv q.den

/-- Round to the nearest integer, ties to even: the rounding used by Python's
fixed-point float formatting. -/
def roundHalfEven (q : ℚ) : ℤ :=
  let f := floorQ q
  let r : ℚ := q - (f : ℚ)
  if r < 1 / 2 then f
  else if 1 / 2 < r then f + 1
  else if f % 2 = 0 then f else f + 1

/-- Zero-pad a digit string on the left to length `d`. -/
def padZeros (d : ℕ) (l : List Char) : List Char := List.replicate (d - l.length) '0' ++ l

/-- Models Python fixed-point formatting `f"{q:.df}"`: round half-to-even at
`d` decimal digits and render (no decimal point when `d = 0`). -/
def formatFixed (d : ℕ) (q : ℚ) : List Char :=
  let n := roundHalfEven (q * ((10 : ℚ) ^ d))
  let sign : List Char := if n < 0 then ['-'] else []
  let m := n.natAbs
  if d = 0 then sign ++ natStr m
  else sign ++ natStr (m / 10 ^ d) ++ '.' :: padZeros d (natStr (m % 10 ^ d))

/-- The `AssessmentType` enumeration of `backend/models/schemas.py`. -/
inductive AssessmentType where
  | symptom_checklist
  | reaction_time
  | baseline
  | post_injury
deriving DecidableEq, Repr

/-- The value of the classifier's `time_range` field: either a symbolic
period name or the raw `re.findall` triples for explicit dates.  Note the
second variant holds tuples, not strings, exactly as the Python code builds
it. -/
inductive TimeRangeVal where
  | period (p : String)
  | custom_dates (ds : List (String × String × String))
deriving DecidableEq

/-- The `filters` dictionary built by `_extract_filters`: at most the keys
`team` and `min_severity` are ever set, modelled as two optional fields. -/
structure Filters where
  team : Option String
  min_severity : Option ℕ
deriving DecidableEq

/-- The `QueryClassification` pydantic model of `backend/models/schemas.py`. -/
structure QueryClassification where
  intent : String
  modules : List AssessmentType
  metrics : List String
  filters : Filters
  time_range : Option TimeRangeVal
  confidence : ℚ
deriving DecidableEq

/-- The keyword tables built in `QueryProcessor.__init__`. -/
def symptom_keywords : List String :=
  ["headache", "nausea", "dizziness", "confusion", "memory",
   "emotional", "symptom", "symptoms", "pain", "score"]

def reaction_time_keywords : List String :=
  ["reaction", "time", "speed", "cognitive", "response",
   "accuracy", "performance", "test"]

def aggregation_keywords : List (String × List String) :=
  [("average", ["average", "avg", "mean"]),
   ("maximum", ["max", "maximum", "highest", "worst"]),
   ("minimum", ["min", "minimum", "lowest", "best"]),
   ("count", ["count", "number", "how many"]),
   ("list", ["list", "show", "display", "who"])]

def time_patterns : List (String × List String) :=
  [("last_week", ["last week", "past week"]),
   ("last_month", ["last month", "past month"]),
   ("last_30_days", ["last 30 days", "past 30 days"]),
   ("today", ["today", "today\x27s"]),
   ("yesterday", ["yesterday"])]

/-- One Python `keyword in question` test. -/
def kwIn (k : String) (q : List Char) : Bool := occursIn k.toList q

/-- `QueryProcessor._determine_intent`: first aggregation-table entry (in
declared order) with a keyword substring match wins; otherwise the secondary
compare / trend / alert patterns; otherwise `summary`. -/
def determine_intent (q : List Char) : String :=
  match aggregation_keywords.find? (fun p => p.2.any (fun k => kwIn k q)) with
  | some p => p.1
  | none =>
    if kwIn "compare" q || kwIn "vs" q then "compare"
    else if kwIn "trend" q || kwIn "over time" q then "trend"
    else if kwIn "alert" q || kwIn "concern" q then "alert"
    else "summary"

/-- The module-detection block at the top of `classify_query`. -/
def determine_modules (q : List Char) : List AssessmentType :=
  let modules :=
    (if symptom_keywords.any (fun k => kwIn k q) then [AssessmentType.symptom_checklist] else [])
      ++ (if reaction_time_keywords.any (fun k => kwIn k q) then [AssessmentType.reaction_time] else [])
  if modules.isEmpty then [AssessmentType.symptom_checklist, AssessmentType.reaction_time]
  else modules

/-- `QueryProcessor._extract_metrics`. -/
def extract_metrics (q : List Char) (modules : List AssessmentType) : List String :=
  let m1 :=
    if AssessmentType.symptom_checklist ∈ modules then
      let adds :=
        (if kwIn "headache" q then ["headache_severity"] else [])
          ++ (if kwIn "total" q && kwIn "score" q then ["total_symptom_score"] else [])
      if adds.isEmpty then ["total_symptom_score", "headache_severity"] else adds
    else []
  if AssessmentType.reaction_time ∈ modules then
    let m2 := m1
      ++ (if kwIn "accuracy" q then ["accuracy_percentage"] else [])
      ++ (if kwIn "reaction" q && kwIn "time" q then ["average_reaction_time"] else [])
    if m2.any (fun m => occursIn "reaction".toList m.toList) then m2
    else m2 ++ ["average_reaction_time"]
  else m1

/-- `QueryProcessor._extract_time_range`. -/
def extract_time_range (q : List Char) : Option TimeRangeVal :=
  match time_patterns.find? (fun p => p.2.any (fun pat => kwIn pat q)) with
  | some p => some (TimeRangeVal.period p.1)
  | none =>
    match dateFindall q with
    | [] => none
    | ds => some (TimeRangeVal.custom_dates
        (ds.map (fun t => (String.mk t.1, String.mk t.2.1, String.mk t.2.2))))

/-- `QueryProcessor._extract_filters`. -/
def extract_filters (q : List Char) : Filters :=
  { team := (teamFindall q).head?.map String.mk,
    min_severity :=
      if kwIn "severe" q then some 4
      else if kwIn "moderate" q then some 2
      else none }

/-- The body of `QueryProcessor.classify_query` before the pydantic model is
constructed: the classification data computed from the lower-cased question. -/
def classify_raw (question : String) : QueryClassification :=
  let ql := pyLower question.toList
  { intent := determine_intent ql
    modules := determine_modules ql
    metrics := extract_metrics ql (determine_modules ql)
    filters := extract_filters ql
    time_range := extract_time_range ql
    confidence := 8 / 10 }

/-- Pydantic validation of the `QueryClassification` field types: the
`time_range` field is declared `Optional[Dict[str, str]]`, so a
`custom_dates` value (whose dict value is a list of tuples, not a string)
fails validation; `confidence` is declared with `ge=0, le=1` (stated on the
numerator/denominator so that it is an executable integer comparison:
`0 ≤ q ↔ 0 ≤ q.num` and `q ≤ 1 ↔ q.num ≤ q.den`). -/
def pydantic_valid (c : QueryClassification) : Bool :=
  (match c.time_range with
   | some (TimeRangeVal.custom_dates _) => false
   | _ => true)
    && decide (0 ≤ c.confidence.num) && decide (c.confidence.num ≤ (c.confidence.den : ℤ))

/-- `QueryProcessor.classify_query`: build the classification and construct
the pydantic model, which raises `ValidationError` when a field does not
match its declared type. -/
def classify_query (question : String) : Except String QueryClassification :=
  let raw := classify_raw question
  if pydantic_valid raw then Except.ok raw else Except.error "ValidationError"

/-- A `datetime.datetime` value as the pipeline uses it: a day number (so
whole-day `timedelta` arithmetic is subtraction on `day`) plus the
time-of-day fields.  `microsecond` is carried explicitly because
`datetime.replace(hour=..., minute=..., second=...)` leaves it untouched. -/
structure PyDateTime where
  day : ℤ
  hour : ℕ
  minute : ℕ
  second : ℕ
  microsecond : ℕ
deriving DecidableEq

/-- `dt - timedelta(days=n)` (also used for `weeks=1` as 7 days). -/
def subDays (t : PyDateTime) (n : ℤ) : PyDateTime := { t with day := t.day - n }

/-- `dt.replace(hour=h, minute=m, second=s)`: exactly the three named fields
are replaced; the microsecond field is preserved. -/
def replaceHMS (t : PyDateTime) (h m s : ℕ) : PyDateTime :=
  { t with hour := h, minute := m, second := s }

/-- The `{"start": ..., "end": ...}` dictionary returned by
`_convert_time_range` (`stop` models the `"end"` key). -/
structure DateRange where
  start : Option PyDateTime
  stop : Option PyDateTime
deriving DecidableEq

/-- `QueryProcessor._convert_time_range`.  In the Python source `now` is
sampled by `datetime.now()` inside the function body; the sampled value is
the explicit `now` argument here. -/
def convert_time_range (time_range : Option TimeRangeVal) (now : PyDateTime) : DateRange :=
  match time_range with
  | none => ⟨none, none⟩
  | some (TimeRangeVal.custom_dates _) => ⟨none, none⟩
  | some (TimeRangeVal.period p) =>
    if p = "last_week" then ⟨some (subDays now 7), some now⟩
    else if p = "last_month" then ⟨some (subDays now 30), some now⟩
    else if p = "last_30_days" then ⟨some (subDays now 30), some now⟩
    else if p = "today" then ⟨some (replaceHMS now 0 0 0), some now⟩
    else if p = "yesterday" then
      ⟨some (replaceHMS (subDays now 1) 0 0 0), some (replaceHMS (subDays now 1) 23 59 59)⟩
    else ⟨none, none⟩

/-- One row returned by `DatabaseService.get_symptom_data`, restricted to the
columns the aggregator reads. -/
structure SymptomRow where
  patient_id : String
  total_symptom_score : ℚ
  headache_severity : ℚ
deriving DecidableEq

/-- One row returned by `DatabaseService.get_reaction_time_data`, restricted
to the columns the aggregator reads. -/
structure ReactionRow where
  patient_id : String
  average_reaction_time : ℚ
  accuracy_percentage : ℚ
deriving DecidableEq

/-- Python `max` over a list; in this pipeline it is only applied to
non-empty lists (`max([])` would raise, but both aggregators return early on
empty input). -/
def pyMax : List ℚ → ℚ
  | [] => 0
  | x :: xs => xs.foldl max x

/-- Python `min` over a list, with the same non-empty proviso. -/
def pyMin : List ℚ → ℚ
  | [] => 0
  | x :: xs => xs.foldl min x

/-- The dictionary returned by `calculate_symptom_metrics` on non-empty
input. -/
structure SymptomMetrics where
  avg_total_symptom_score : ℚ
  max_total_symptom_score : ℚ
  avg_headache_severity : ℚ
  patient_count : ℕ
  assessment_count : ℕ
deriving DecidableEq

/-- The dictionary returned by `calculate_reaction_time_metrics` on
non-empty input. -/
structure ReactionMetrics where
  avg_reaction_time : ℚ
  max_reaction_time : ℚ
  min_reaction_time : ℚ
  avg_accuracy : ℚ
  patient_count : ℕ
  test_count : ℕ
deriving DecidableEq

/-- `DatabaseService.calculate_symptom_metrics`; `none` is the empty
dictionary returned for empty input. `len(set(...))` is `List.dedup.length`. -/
def calculate_symptom_metrics (data : List SymptomRow) : Option SymptomMetrics :=
  match data with
  | [] => none
  | _ :: _ =>
    let total_scores := data.map (fun r => r.total_symptom_score)
    let headache_scores := data.map (fun r => r.headache_severity)
    some
      { avg_total_symptom_score := total_scores.sum / (total_scores.length : ℚ)
        max_total_symptom_score := pyMax total_scores
        avg_headache_severity := headache_scores.sum / (headache_scores.length : ℚ)
        patient_count := (data.map (fun r => r.patient_id)).dedup.length
        assessment_count := data.length }

/-- `DatabaseService.calculate_reaction_time_metrics`. -/
def calculate_reaction_time_metrics (data : List ReactionRow) : Option ReactionMetrics :=
  match data with
  | [] => none
  | _ :: _ =>
    let avg_times := data.map (fun r => r.average_reaction_time)
    let accuracies := data.map (fun r => r.accuracy_percentage)
    some
      { avg_reaction_time := avg_times.sum / (avg_times.length : ℚ)
        max_reaction_time := pyMax avg_times
        min_reaction_time := pyMin avg_times
        avg_accuracy := accuracies.sum / (accuracies.length : ℚ)
        patient_count := (data.map (fun r => r.patient_id)).dedup.length
        test_count := data.length }

/-- One entry of the orchestrator's `results` list
(`{"module": ..., "data": ..., "count": ...}`); the module tag and the shape
of the metrics dictionary always agree in the reachable states, so the entry
is a tagged pair. -/
inductive ModuleResult where
  | symptom (data : SymptomMetrics) (count : ℕ)
  | reaction (data : ReactionMetrics) (count : ℕ)
deriving DecidableEq

/-- The `result["module"]` string of a results entry. -/
def moduleName : ModuleResult → String
  | ModuleResult.symptom _ _ => "symptom_checklist"
  | ModuleResult.reaction _ _ => "reaction_time"

/-- `" ".join(parts)`. -/
def joinSp : List (List Char) → List Char
  | [] => []
  | [x] => x
  | x :: xs => x ++ ' ' :: joinSp xs

/-- The no-data message of `_generate_response`. -/
def noDataMsg : List Char :=
  "I couldn\x27t find any data matching your query. Please try with different criteria.".toList

/-- The clinical-alert addendum appended for the `alert` intent. -/
def alertNote : List Char :=
  "\n\nThis data may require clinical attention if values are significantly elevated from baseline.".toList

/-- The symptom-module sentence template of `_generate_response`. -/
def symptomSentence (m : SymptomMetrics) (count : ℕ) : List Char :=
  "Based on ".toList ++ (natStr count ++
    (" symptom assessments, the average total symptom score is ".toList ++
      (formatFixed 1 m.avg_total_symptom_score ++
        (". Average headache severity is ".toList ++
          (formatFixed 1 m.avg_headache_severity ++ " out of 6.".toList)))))

/-- The reaction-module sentence template of `_generate_response`. -/
def reactionSentence (m : ReactionMetrics) (count : ℕ) : List Char :=
  "Based on ".toList ++ (natStr count ++
    (" reaction time tests, the average reaction time is ".toList ++
      (formatFixed 0 m.avg_reaction_time ++
        ("ms with an average accuracy of ".toList ++
          (formatFixed 1 m.avg_accuracy ++ "%.".toList)))))

/-- The sentence `_generate_response` produces for one results entry. -/
def sentenceOf : ModuleResult → List Char
  | ModuleResult.symptom m c => symptomSentence m c
  | ModuleResult.reaction m c => reactionSentence m c

/-- `QueryProcessor._generate_response`. -/
def generate_response (classification : QueryClassification) (results : List ModuleResult) :
    List Char :=
  if results.isEmpty then noDataMsg
  else
    let response_parts := results.map sentenceOf
    let response_parts :=
      if classification.intent = "alert" && !results.isEmpty then response_parts ++ [alertNote]
      else response_parts
    joinSp response_parts

/-- Python `a or b` on optional strings: `a` when it is a non-empty string,
otherwise `b` (`None` and `""` are falsy). -/
def pyOrStr (a b : Option String) : Option String :=
  match a with
  | some s => if s.isEmpty then b else some s
  | none => b

/-- The payload returned by `process_query`. -/
structure ProcessResult where
  answer : List Char
  confidence : ℚ
  source_modules : List String
  metadata_classification : QueryClassification
  metadata_results : List ModuleResult
  metadata_query_type : String
deriving DecidableEq

/-- The `if SYMPTOM_CHECKLIST in classification.modules: ... if symptom_data:`
block of `process_query`: the (zero- or one-element) contribution of the
symptom module to the `results` list. -/
def symptomResults (modules : List AssessmentType) (symptom_data : List SymptomRow) :
    List ModuleResult :=
  if AssessmentType.symptom_checklist ∈ modules then
    match calculate_symptom_metrics symptom_data with
    | some m => [ModuleResult.symptom m symptom_data.length]
    | none => []
  else []

/-- The corresponding `REACTION_TIME` block of `process_query`. -/
def reactionResults (modules : List AssessmentType) (reaction_data : List ReactionRow) :
    List ModuleResult :=
  if AssessmentType.reaction_time ∈ modules then
    match calculate_reaction_time_metrics reaction_data with
    | some m => [ModuleResult.reaction m reaction_data.length]
    | none => []
  else []

/-- `QueryProcessor.process_query`.  The two gateway reads
(`get_symptom_data`, `get_reaction_time_data`) are the function parameters
`fetchS` / `fetchR`, taking the team filter and date window exactly as the
code passes them; `now` is the instant `datetime.now()` yields inside
`_convert_time_range`.  A `ValidationError` raised while building the
classification propagates (`Except.error`). -/
def process_query
    (fetchS : Option String → Option PyDateTime → Option PyDateTime → List SymptomRow)
    (fetchR : Option String → Option PyDateTime → Option PyDateTime → List ReactionRow)
    (now : PyDateTime) (question : String)
    (user_id team_id : Option String) : Except String ProcessResult :=
  match classify_query question with
  | Except.error e => Except.error e
  | Except.ok classification =>
    let date_range := convert_time_range classification.time_range now
    let teamArg := pyOrStr team_id classification.filters.team
    let symptom_data := fetchS teamArg date_range.start date_range.stop
    let reaction_data := fetchR teamArg date_range.start date_range.stop
    let results := symptomResults classification.modules symptom_data
      ++ reactionResults classification.modules reaction_data
    Except.ok
      { answer := generate_response classification results
        confidence := classification.confidence
        source_modules := results.map moduleName
        metadata_classification := classification
        metadata_results := results
        metadata_query_type := classification.intent }

/-- The document type of the S3 detail blob (a parsed JSON object); `[]` is
the empty dictionary. -/
def S3Doc := List (String × String)

/-- `DatabaseService.get_s3_assessment_data`.  `s3Get` models
`s3_client.get_object` plus the body read/decode (any raised failure is an
`Except.error`), `jsonLoads` models `json.loads`; the `try/except` converts
any failure from either stage into the empty dictionary. -/
def get_s3_assessment_data (s3Get : String → Except String String)
    (jsonLoads : String → Except String S3Doc)
    (patient_id assessment_type : String) : S3Doc :=
  let s3_key := "assessments/" ++ patient_id ++ "/" ++ assessment_type ++ "/latest.json"
  match s3Get s3_key with
  | Except.error _ => []
  | Except.ok content =>
    match jsonLoads content with
    | Except.error _ => []
    | Except.ok doc => doc

/-- Exact midnight of the day of `t`.  Modelled from the spec: "start equal
to exactly midnight (00:00:00) of now's date" — all time-of-day fields
including the microsecond are zero.  Used to compare the specified window
boundary with the one the code computes. -/
def specMidnight (t : PyDateTime) : PyDateTime := ⟨t.day, 0, 0, 0, 0⟩

/-- Exact 23:59:59 of the day before `t`.  Modelled from the spec: "end
equal to 23:59:59 of the previous day". -/
def specYesterdayEnd (t : PyDateTime) : PyDateTime := ⟨t.day - 1, 23, 59, 59, 0⟩

/-- Auxiliary rows for exercising the aggregator at the spec's example data
(scores 35, 78, 15 over two distinct patients). -/
def demoSymptomRows : List SymptomRow :=
  [⟨"P001", 35, 2⟩, ⟨"P002", 78, 4⟩, ⟨"P001", 15, 1⟩]

/-- The classification `classify_query` computes for the C1 scenario
question "What is the average headache severity for LSU players?". -/
def lsuCls : QueryClassification :=
  { intent := "average"
    modules := [AssessmentType.symptom_checklist]
    metrics := ["headache_severity"]
    filters := { team := none, min_severity := none }
    time_range := none
    confidence := 8 / 10 }

/-- The symptom metrics for the two scenario records (total scores 35 and
78, headache severities 2 and 4) of patients `p1`, `p2`. -/
def lsuMetrics (p1 p2 : String) : SymptomMetrics :=
  { avg_total_symptom_score := 113 / 2
    max_total_symptom_score := 78
    avg_headache_severity := 3
    patient_count := ([p1, p2]).dedup.length
    assessment_count := 2 }

/-- The orchestrator output for the question "test" when both gateway
fetches return no records. -/
def demoOut : ProcessResult :=
  { answer := noDataMsg
    confidence := 8 / 10
    source_modules := []
    metadata_classification :=
      { intent := "summary"
        modules := [AssessmentType.reaction_time]
        metrics := ["average_reaction_time"]
        filters := { team := none, min_severity := none }
        time_range := none
        confidence := 8 / 10 }
    metadata_results := []
    metadata_query_type := "summary" }

theorem beginsWith_iff (n h : List Char) : beginsWith n h = true ↔ ∃ t, h = n ++ t := by
  induction n generalizing h with
  | nil => simp [beginsWith]
  | cons a as ih =>
    cases h with
    | nil => simp [beginsWith]
    | cons b bs =>
      simp only [beginsWith, Bool.and_eq_true, beq_iff_eq, ih, List.cons_append,
        List.cons.injEq]
      constructor
      · rintro ⟨rfl, t, rfl⟩; exact ⟨t, rfl, rfl⟩
      · rintro ⟨t, rfl, rfl⟩; exact ⟨rfl, t, rfl⟩

theorem occursIn_iff (n h : List Char) : occursIn n h = true ↔ ∃ s t, h = s ++ n ++ t := by
  induction h with
  | nil =>
    simp only [occursIn, beginsWith_iff]
    constructor
    · rintro ⟨t, ht⟩; exact ⟨[], t, ht⟩
    · rintro ⟨s, t, ht⟩
      rcases List.append_eq_nil.mp (List.append_eq_nil.mp ht.symm).1 with ⟨h1, h2⟩
      exact ⟨t, by simp [h2, (List.append_eq_nil.mp ht.symm).2]⟩
  | cons c cs ih =>
    simp only [occursIn, Bool.or_eq_true, beginsWith_iff, ih]
    constructor
    · rintro (⟨t, ht⟩ | ⟨s, t, ht⟩)
      · exact ⟨[], t, by simpa using ht⟩
      · exact ⟨c :: s, t, by simp [ht]⟩
    · rintro ⟨s, t, ht⟩
      cases s with
      | nil => exact Or.inl ⟨t, by simpa using ht⟩
      | cons x xs =>
        right
        refine ⟨xs, t, ?_⟩
        have h2 : c = x ∧ cs = xs ++ n ++ t := by simpa using ht
        simp [h2.2]

theorem occursIn_nil_left (h : List Char) : occursIn [] h = true := by
  induction h with
  | nil => rfl
  | cons c cs ih => simp [occursIn, beginsWith]

/-- Decomposition of an occurrence inside an appended list: the occurrence lies
in the left part, in the right part, or straddles the seam. -/
theorem occursIn_append_cases (t a b : List Char) (h : occursIn t (a ++ b) = true) :
    occursIn t a = true ∨ occursIn t b = true ∨
      ∃ t1 t2, t = t1 ++ t2 ∧ t1 ≠ [] ∧ t2 ≠ [] ∧
        (∃ s, a = s ++ t1) ∧ (∃ e, b = t2 ++ e) := by
  rcases (occursIn_iff t (a ++ b)).mp h with ⟨s, e, hse⟩
  have hse' : a ++ b = s ++ (t ++ e) := by simpa [List.append_assoc] using hse
  rcases List.append_eq_append_iff.mp hse' with ⟨a', ha, hb⟩ | ⟨c', hc, hd⟩
  · -- s = a ++ a'  (occurrence entirely inside b)
    right; left
    exact (occursIn_iff t b).mpr ⟨a', e, by simpa [List.append_assoc] using hb⟩
  · -- a = s ++ c' and c' ++ b = t ++ e
    rcases List.append_eq_append_iff.mp hd.symm with ⟨x, hx1, hx2⟩ | ⟨y, hy1, hy2⟩
    · -- t = c' ++ x and b = x ++ e
      cases hx0 : x with
      | nil =>
        left
        refine (occursIn_iff t a).mpr ⟨s, [], ?_⟩
        subst hx0
        simp [hc, hx1]
      | cons xh xt =>
        cases hc0 : c' with
        | nil =>
          right; left
          refine (occursIn_iff t b).mpr ⟨[], e, ?_⟩
          subst hc0
          simp [hx2, hx1]
        | cons ch ct =>
          right; right
          refine ⟨c', x, hx1, by simp [hc0], by simp [hx0], ⟨s, hc⟩, ⟨e, hx2⟩⟩
    · -- c' = t ++ y  (occurrence entirely inside a)
      left
      exact (occursIn_iff t a).mpr ⟨s, y, by simp [hc, hy1, List.append_assoc]⟩

/-- If every element of `t` fails a character test that every element of the
non-empty middle segment `n` passes, an occurrence of `t` in `a ++ (n ++ b)`
cannot touch `n`, so it lies wholly in `a` or wholly in `b`. -/
theorem occursIn_skip_mid (P : Char → Bool) (t a n b : List Char)
    (ht : ∀ c ∈ t, P c = false) (hn : ∀ c ∈ n, P c = true) (hne : n ≠ [])
    (h : occursIn t (a ++ (n ++ b)) = true) :
    occursIn t a = true ∨ occursIn t b = true := by
  rcases occursIn_append_cases t a (n ++ b) h with h1 | h1 | ⟨t1, t2, rfl, ht1, ht2, _, ⟨e, he⟩⟩
  · exact Or.inl h1
  · rcases occursIn_append_cases t n b h1 with h2 | h2 | ⟨t1, t2, rfl, ht1, ht2, ⟨s, hs⟩, _⟩
    · cases hmem : t with
      | nil => exact Or.inl (occursIn_nil_left a)
      | cons c cs =>
        exfalso
        rcases (occursIn_iff t n).mp h2 with ⟨s, e, hne'⟩
        have hc_t : c ∈ t := by simp [hmem]
        have hc_n : c ∈ n := by
          subst hmem
          rw [hne']
          simp
        have := ht c hc_t
        rw [hn c hc_n] at this
        exact Bool.true_eq_false.mp this
    · exact Or.inr h2
    · exfalso
      cases ht1' : t1 with
      | nil => exact ht1 ht1'
      | cons c cs =>
        have hc_t : c ∈ t1 ++ t2 := by simp [ht1']
        have hc_n : c ∈ n := by
          rw [hs, ht1']
          simp
        have := ht c hc_t
        rw [hn c hc_n] at this
        exact Bool.true_eq_false.mp this
  · exfalso
    cases n with
    | nil => exact hne rfl
    | cons nh nt =>
      cases t2 with
      | nil => exact ht2 rfl
      | cons c cs =>
        have hc : c = nh := by
          have : nh :: (nt ++ b) = c :: (cs ++ e) := by simpa using he
          exact (List.cons.injEq nh (nt ++ b) c (cs ++ e) ▸ this).1.symm
        have hc_t : c ∈ t1 ++ c :: cs := by simp
        have := ht c hc_t
        rw [hc, hn nh (by simp)] at this
        exact Bool.true_eq_false.mp this

theorem toNat_ofNat_small (n : ℕ) (h : n < 55296) : (Char.ofNat n).toNat = n := by
  have hv : n.isValidChar := Or.inl h
  simp only [Char.ofNat, Char.toNat, Char.ofNatAux, UInt32.toNat]
  rw [dif_pos hv]
  rfl

theorem charLower_not_upper (c : Char) : isUpperAZ (charLower c) = false := by
  unfold charLower isUpperAZ
  by_cases h : (65 ≤ c.toNat && c.toNat ≤ 90) = true
  · simp only [h, if_true]
    have h' := Bool.and_eq_true _ _ ▸ h
    have h1 : 65 ≤ c.toNat := by simpa using h'.1
    have h2 : c.toNat ≤ 90 := by simpa using h'.2
    rw [toNat_ofNat_small (c.toNat + 32) (by omega)]
    simp only [Bool.and_eq_false_iff]
    right
    simp
    omega
  · simp only [h, if_false]
    simpa using h

theorem pyLower_no_upper (s : List Char) : ∀ c ∈ pyLower s, isUpperAZ c = false := by
  intro c hc
  rcases List.mem_map.mp hc with ⟨d, _, rfl⟩
  exact charLower_not_upper d

theorem teamMatchAt_none_of_not_upper (c : Char) (cs : List Char)
    (h : isUpperAZ c = false) : teamMatchAt (c :: cs) = none := by
  have hL : (('L' == c) = false) := by
    cases hc : 'L' == c
    · rfl
    · exfalso
      have : 'L' = c := by simpa using hc
      rw [← this] at h
      simp [isUpperAZ] at h
  have hT : (('T' == c) = false) := by
    cases hc : 'T' == c
    · rfl
    · exfalso
      have : 'T' = c := by simpa using hc
      rw [← this] at h
      simp [isUpperAZ] at h
  unfold teamMatchAt
  simp only [beginsWith, hL, hT, Bool.false_and, Bool.false_or, if_false, h,
    Bool.and_self, String.toList]
  simp [h]

theorem teamScanAux_nil_of_no_upper (fuel : ℕ) (prevW : Bool) (s : List Char)
    (h : ∀ c ∈ s, isUpperAZ c = false) : teamScanAux fuel prevW s = [] := by
  induction fuel generalizing prevW s with
  | zero => rfl
  | succ f ih =>
    cases s with
    | nil => rfl
    | cons c cs =>
      have hc := h c (by simp)
      have hcs : ∀ d ∈ cs, isUpperAZ d = false := fun d hd => h d (by simp [hd])
      unfold teamScanAux
      by_cases hp : prevW
      · simp only [hp, if_true]
        exact ih _ _ hcs
      · simp only [hp, if_false, teamMatchAt_none_of_not_upper c cs hc]
        exact ih _ _ hcs

theorem digit_char_numChar (k : ℕ) (h : k < 10) : numChar (Char.ofNat (48 + k)) = true := by
  interval_cases k <;> decide

theorem natDigitsAux_numChar (f n : ℕ) : ∀ c ∈ natDigitsAux f n, numChar c = true := by
  induction f generalizing n with
  | zero => intro c hc; simp [natDigitsAux] at hc
  | succ f ih =>
    intro c hc
    unfold natDigitsAux at hc
    by_cases h : n < 10
    · simp only [h, if_true, List.mem_singleton] at hc
      exact hc ▸ digit_char_numChar n h
    · simp only [h, if_false, List.mem_append, List.mem_singleton] at hc
      rcases hc with hc | hc
      · exact ih _ c hc
      · exact hc ▸ digit_char_numChar (n % 10) (Nat.mod_lt _ (by omega))

theorem natDigitsAux_ne_nil (f n : ℕ) (hf : 0 < f) : natDigitsAux f n ≠ [] := by
  cases f with
  | zero => omega
  | succ f =>
    unfold natDigitsAux
    by_cases h : n < 10 <;> simp [h]

theorem natStr_numChar (n : ℕ) : ∀ c ∈ natStr n, numChar c = true :=
  natDigitsAux_numChar (n + 1) n

theorem formatFixed_numChar (d : ℕ) (q : ℚ) : ∀ c ∈ formatFixed d q, numChar c = true := by
  intro c hc
  unfold formatFixed at hc
  by_cases h : d = 0 <;> simp only [h, if_true, if_false, List.mem_append, reduceIte] at hc
  · rcases hc with hc | hc
    · split at hc
      · simp only [List.mem_singleton] at hc
        exact hc ▸ (by decide)
      · simp at hc
    · exact natStr_numChar _ c hc
  · rcases hc with (hc | hc) | hc
    · split at hc
      · simp only [List.mem_singleton] at hc
        exact hc ▸ (by decide)
      · simp at hc
    · exact natStr_numChar _ c hc
    · rcases List.mem_cons.mp hc with hc | hc
      · exact hc ▸ (by decide)
      · unfold padZeros at hc
        rcases List.mem_append.mp hc with hc | hc
        · exact (List.eq_of_mem_replicate hc) ▸ (by decide)
        · exact natStr_numChar _ c hc

theorem formatFixed_ne_nil (d : ℕ) (q : ℚ) : formatFixed d q ≠ [] := by
  unfold formatFixed
  by_cases h : d = 0 <;> simp only [h, if_true, if_false, reduceIte]
  · intro hx
    rcases List.append_eq_nil.mp hx with ⟨_, h2⟩
    exact natDigitsAux_ne_nil _ _ (by omega) h2
  · intro hx
    rcases List.append_eq_nil.mp hx with ⟨_, h2⟩
    simp at h2

theorem natStr_ne_nil (n : ℕ) : natStr n ≠ [] := natDigitsAux_ne_nil _ _ (by omega)

theorem classify_query_ok_eq (q : String) (cls : QueryClassification)
    (h : classify_query q = Except.ok cls) : cls = classify_raw q := by
  by_cases hv : pydantic_valid (classify_raw q) = true
  · have hq : classify_query q = Except.ok (classify_raw q) := by
      unfold classify_query
      simp [hv]
    rw [hq] at h
    exact (Except.ok.inj h).symm
  · have hq : classify_query q = Except.error "ValidationError" := by
      unfold classify_query
      simp [hv]
    rw [hq] at h
    cases h

theorem calculate_symptom_metrics_eq_none (l : List SymptomRow) :
    calculate_symptom_metrics l = none ↔ l = [] := by
  cases l <;> simp [calculate_symptom_metrics]

theorem calculate_reaction_time_metrics_eq_none (l : List ReactionRow) :
    calculate_reaction_time_metrics l = none ↔ l = [] := by
  cases l <;> simp [calculate_reaction_time_metrics]

theorem foldl_max_le (x : ℚ) (xs : List ℚ) : ∀ y ∈ x :: xs, y ≤ xs.foldl max x := by
  induction xs generalizing x with
  | nil => intro y hy; simp at hy; simp [hy]
  | cons a as ih =>
    intro y hy
    rcases List.mem_cons.mp hy with rfl | hy2
    · calc y ≤ max y a := le_max_left y a
        _ ≤ as.foldl max (max y a) := ih (max y a) _ (by simp)
    · rcases List.mem_cons.mp hy2 with rfl | hy3
      · calc y ≤ max x y := le_max_right x y
          _ ≤ as.foldl max (max x y) := ih (max x y) _ (by simp)
      · exact ih (max x a) y (by simp [hy3])

theorem foldl_max_mem (x : ℚ) (xs : List ℚ) : xs.foldl max x ∈ x :: xs := by
  induction xs generalizing x with
  | nil => simp
  | cons a as ih =>
    have h := ih (max x a)
    rcases List.mem_cons.mp h with h1 | h1
    · rcases max_choice x a with h2 | h2
      · simp only [List.foldl_cons]
        rw [h1, h2]
        simp
      · simp only [List.foldl_cons]
        rw [h1, h2]
        simp
    · simp only [List.foldl_cons]
      exact List.mem_cons_of_mem _ (List.mem_cons_of_mem _ h1)

theorem symptomResults_shape (ms : List AssessmentType) (sd : List SymptomRow) :
    (symptomResults ms sd = [] ∧ (AssessmentType.symptom_checklist ∉ ms ∨ sd = [])) ∨
      (∃ m, symptomResults ms sd = [ModuleResult.symptom m sd.length] ∧
        AssessmentType.symptom_checklist ∈ ms ∧ sd ≠ []) := by
  unfold symptomResults
  by_cases hm : AssessmentType.symptom_checklist ∈ ms
  · rw [if_pos hm]
    cases hc : calculate_symptom_metrics sd with
    | none => exact Or.inl ⟨rfl, Or.inr ((calculate_symptom_metrics_eq_none sd).mp hc)⟩
    | some m =>
      right
      refine ⟨m, rfl, hm, ?_⟩
      intro hnil
      rw [(calculate_symptom_metrics_eq_none sd).mpr hnil] at hc
      cases hc
  · simp [hm]

theorem reactionResults_shape (ms : List AssessmentType) (rd : List ReactionRow) :
    (reactionResults ms rd = [] ∧ (AssessmentType.reaction_time ∉ ms ∨ rd = [])) ∨
      (∃ m, reactionResults ms rd = [ModuleResult.reaction m rd.length] ∧
        AssessmentType.reaction_time ∈ ms ∧ rd ≠ []) := by
  unfold reactionResults
  by_cases hm : AssessmentType.reaction_time ∈ ms
  · rw [if_pos hm]
    cases hc : calculate_reaction_time_metrics rd with
    | none => exact Or.inl ⟨rfl, Or.inr ((calculate_reaction_time_metrics_eq_none rd).mp hc)⟩
    | some m =>
      right
      refine ⟨m, rfl, hm, ?_⟩
      intro hnil
      rw [(calculate_reaction_time_metrics_eq_none rd).mpr hnil] at hc
      cases hc
  · simp [hm]

theorem occursIn_reactionSentence_cases (t : List Char) (m : ReactionMetrics) (cnt : ℕ)
    (tl : List Char) (ht : ∀ c ∈ t, numChar c = false)
    (h : occursIn t (reactionSentence m cnt ++ tl) = true) :
    occursIn t "Based on ".toList = true ∨
      occursIn t " reaction time tests, the average reaction time is ".toList = true ∨
      occursIn t "ms with an average accuracy of ".toList = true ∨
      occursIn t ("%.".toList ++ tl) = true := by
  unfold reactionSentence at h
  simp only [List.append_assoc] at h
  rcases occursIn_skip_mid numChar t _ _ _ ht (natStr_numChar cnt) (natStr_ne_nil cnt) h
    with h1 | h1
  · exact Or.inl h1
  rcases occursIn_skip_mid numChar t _ _ _ ht (formatFixed_numChar 0 m.avg_reaction_time)
      (formatFixed_ne_nil 0 m.avg_reaction_time) h1 with h2 | h2
  · exact Or.inr (Or.inl h2)
  rcases occursIn_skip_mid numChar t _ _ _ ht (formatFixed_numChar 1 m.avg_accuracy)
      (formatFixed_ne_nil 1 m.avg_accuracy) h2 with h3 | h3
  · exact Or.inr (Or.inr (Or.inl h3))
  · exact Or.inr (Or.inr (Or.inr h3))

theorem occursIn_symptomSentence_cases (t : List Char) (m : SymptomMetrics) (cnt : ℕ)
    (tl : List Char) (ht : ∀ c ∈ t, numChar c = false)
    (h : occursIn t (symptomSentence m cnt ++ tl) = true) :
    occursIn t "Based on ".toList = true ∨
      occursIn t " symptom assessments, the average total symptom score is ".toList = true ∨
      occursIn t ". Average headache severity is ".toList = true ∨
      occursIn t (" out of 6.".toList ++ tl) = true := by
  unfold symptomSentence at h
  simp only [List.append_assoc] at h
  rcases occursIn_skip_mid numChar t _ _ _ ht (natStr_numChar cnt) (natStr_ne_nil cnt) h
    with h1 | h1
  · exact Or.inl h1
  rcases occursIn_skip_mid numChar t _ _ _ ht (formatFixed_numChar 1 m.avg_total_symptom_score)
      (formatFixed_ne_nil 1 m.avg_total_symptom_score) h1 with h2 | h2
  · exact Or.inr (Or.inl h2)
  rcases occursIn_skip_mid numChar t _ _ _ ht (formatFixed_numChar 1 m.avg_headache_severity)
      (formatFixed_ne_nil 1 m.avg_headache_severity) h2 with h3 | h3
  · exact Or.inr (Or.inr (Or.inl h3))
  · exact Or.inr (Or.inr (Or.inr h3))

theorem generate_response_one_result (cls : QueryClassification) (x : ModuleResult) :
    generate_response cls [x] =
      (if cls.intent = "alert" then sentenceOf x ++ (' ' :: alertNote) else sentenceOf x) := by
  unfold generate_response
  by_cases hI : cls.intent = "alert" <;> simp [hI, joinSp]

theorem no_symptom_marker_reaction_answer (cls : QueryClassification)
    (results : List ModuleResult)
    (hres : results = [] ∨ ∃ m c, results = [ModuleResult.reaction m c]) :
    occursIn "symptom assessments".toList (generate_response cls results) = false := by
  have ht : ∀ c ∈ "symptom assessments".toList, numChar c = false := by decide
  rcases hres with rfl | ⟨m, c, rfl⟩
  · have h0 : generate_response cls [] = noDataMsg := rfl
    rw [h0]
    decide
  · rw [generate_response_one_result]
    by_cases hI : cls.intent = "alert"
    · rw [if_pos hI]
      cases hb : occursIn "symptom assessments".toList
          (sentenceOf (ModuleResult.reaction m c) ++ (' ' :: alertNote)) with
      | false => rfl
      | true =>
        exfalso
        rcases occursIn_reactionSentence_cases _ m c _ ht hb with h1 | h1 | h1 | h1 <;>
          revert h1 <;> decide
    · rw [if_neg hI]
      cases hb : occursIn "symptom assessments".toList
          (sentenceOf (ModuleResult.reaction m c)) with
      | false => rfl
      | true =>
        exfalso
        have hb' : occursIn "symptom assessments".toList (reactionSentence m c ++ []) = true := by
          simpa [sentenceOf] using hb
        rcases occursIn_reactionSentence_cases _ m c _ ht hb' with h1 | h1 | h1 | h1 <;>
          revert h1 <;> decide

theorem no_reaction_marker_symptom_answer (cls : QueryClassification)
    (results : List ModuleResult)
    (hres : results = [] ∨ ∃ m c, results = [ModuleResult.symptom m c]) :
    occursIn "reaction time tests".toList (generate_response cls results) = false := by
  have ht : ∀ c ∈ "reaction time tests".toList, numChar c = false := by decide
  rcases hres with rfl | ⟨m, c, rfl⟩
  · have h0 : generate_response cls [] = noDataMsg := rfl
    rw [h0]
    decide
  · rw [generate_response_one_result]
    by_cases hI : cls.intent = "alert"
    · rw [if_pos hI]
      cases hb : occursIn "reaction time tests".toList
          (sentenceOf (ModuleResult.symptom m c) ++ (' ' :: alertNote)) with
      | false => rfl
      | true =>
        exfalso
        rcases occursIn_symptomSentence_cases _ m c _ ht hb with h1 | h1 | h1 | h1 <;>
          revert h1 <;> decide
    · rw [if_neg hI]
      cases hb : occursIn "reaction time tests".toList
          (sentenceOf (ModuleResult.symptom m c)) with
      | false => rfl
      | true =>
        exfalso
        have hb' : occursIn "reaction time tests".toList (symptomSentence m c ++ []) = true := by
          simpa [sentenceOf] using hb
        rcases occursIn_symptomSentence_cases _ m c _ ht hb' with h1 | h1 | h1 | h1 <;>
          revert h1 <;> decide

/-- C9: if the supplementary-document fetch (keyed
`assessments/<patientId>/<moduleKind>/latest`) fails at either stage (the S3
read or the JSON decode), the caller observes the empty document; on success
it observes the parsed document.  The return type itself is a plain
document, so no failure can propagate out of the call. -/
theorem get_s3_assessment_data_degrades (s3Get : String → Except String String)
    (jsonLoads : String → Except String S3Doc) (pid atype : String) :
    (∀ e, s3Get ("assessments/" ++ pid ++ "/" ++ atype ++ "/latest.json") = Except.error e →
      get_s3_assessment_data s3Get jsonLoads pid atype = []) ∧
    (∀ s e, s3Get ("assessments/" ++ pid ++ "/" ++ atype ++ "/latest.json") = Except.ok s →
      jsonLoads s = Except.error e →
      get_s3_assessment_data s3Get jsonLoads pid atype = []) ∧
    (∀ s d, s3Get ("assessments/" ++ pid ++ "/" ++ atype ++ "/latest.json") = Except.ok s →
      jsonLoads s = Except.ok d →
      get_s3_assessment_data s3Get jsonLoads pid atype = d) := by
  refine ⟨?_, ?_, ?_⟩
  · intro e he
    simp [get_s3_assessment_data, he]
  · intro s e hs he
    simp [get_s3_assessment_data, hs, he]
  · intro s d hs hd
    simp [get_s3_assessment_data, hs, hd]

theorem get_s3_assessment_data_degrades_witness :
    get_s3_assessment_data (fun _ => Except.error "NoSuchKey") (fun _ => Except.ok [])
      "P001" "symptom_checklist" = [] :=
  (get_s3_assessment_data_degrades (fun _ => Except.error "NoSuchKey") (fun _ => Except.ok [])
    "P001" "symptom_checklist").1 "NoSuchKey" rfl

/-- C10 counterexample: the question "what is the average headache severity"
contains the word "severity", yet its classification carries no
`min_severity` filter at all, because `"severe"` is not a substring of
`"severity"`. -/
theorem severity_min_severity_counterexample :
    kwIn "severity" (pyLower "what is the average headache severity".toList) = true ∧
    (classify_raw "what is the average headache severity").filters.min_severity ≠ some 4 := by
  constructor
  · decide
  · decide

/-- C10 amended: filter extraction tests substring containment of "severe"
(and then "moderate") in the lower-cased question; since "severe" is not a
substring of "severity", a question containing "severity" alone gets no
`min_severity` filter.  For every question: `min_severity = 4` exactly when
"severe" occurs as a substring; `min_severity = 2` exactly when "moderate"
occurs and "severe" does not; and when neither occurs (in particular for
every "severity"-without-"severe"/"moderate" question) there is no
`min_severity` filter at all. -/
theorem min_severity_extraction_amended :
    (∀ q : String,
      ((classify_raw q).filters.min_severity = some 4 ↔
        kwIn "severe" (pyLower q.toList) = true) ∧
      ((classify_raw q).filters.min_severity = some 2 ↔
        (kwIn "severe" (pyLower q.toList) = false ∧
          kwIn "moderate" (pyLower q.toList) = true)) ∧
      (kwIn "severe" (pyLower q.toList) = false →
        kwIn "moderate" (pyLower q.toList) = false →
        (classify_raw q).filters.min_severity = none)) ∧
    occursIn "severe".toList "severity".toList = false ∧
    (classify_raw "what is the average headache severity").filters.min_severity = none := by
  refine ⟨?_, by decide, by decide⟩
  intro q
  by_cases h1 : kwIn "severe" (pyLower q.toList) = true
  · have h1' : kwIn "severe" (pyLower q.data) = true := h1
    have hv : (classify_raw q).filters.min_severity = some 4 := by
      simp [classify_raw, extract_filters, h1']
    refine ⟨?_, ?_, ?_⟩
    · rw [hv]
      exact ⟨fun _ => h1, fun _ => rfl⟩
    · rw [hv]
      constructor
      · intro hx
        exact absurd hx (by decide)
      · rintro ⟨hf, _⟩
        exact absurd (h1.symm.trans hf) (by decide)
    · intro hf _
      exact absurd (h1.symm.trans hf) (by decide)
  · have h1' : kwIn "severe" (pyLower q.data) = false := by simpa using h1
    by_cases h2 : kwIn "moderate" (pyLower q.toList) = true
    · have h2' : kwIn "moderate" (pyLower q.data) = true := h2
      have hv : (classify_raw q).filters.min_severity = some 2 := by
        simp [classify_raw, extract_filters, h1', h2']
      refine ⟨?_, ?_, ?_⟩
      · rw [hv]
        constructor
        · intro hx
          exact absurd hx (by decide)
        · intro hse
          exact absurd hse h1
      · rw [hv]
        exact ⟨fun _ => ⟨Bool.eq_false_iff.mpr h1, h2⟩, fun _ => rfl⟩
      · intro _ hcontra
        exact absurd (h2.symm.trans hcontra) (by decide)
    · have h2' : kwIn "moderate" (pyLower q.data) = false := by simpa using h2
      have hv : (classify_raw q).filters.min_severity = none := by
        simp [classify_raw, extract_filters, h1', h2']
      refine ⟨?_, ?_, ?_⟩
      · rw [hv]
        constructor
        · intro hx
          exact absurd hx (by decide)
        · intro hse
          exact absurd hse h1
      · rw [hv]
        constructor
        · intro hx
          exact absurd hx (by decide)
        · rintro ⟨_, hmo⟩
          exact absurd hmo h2
      · intro _ _
        exact hv

theorem min_severity_extraction_amended_witness :
    (classify_raw "show me players with severe symptoms").filters.min_severity = some 4 ∧
    (classify_raw "what is the average headache severity or moderate details").filters.min_severity
      = some 2 :=
  ⟨((min_severity_extraction_amended.1 "show me players with severe symptoms").1).mpr (by decide),
    ((min_severity_extraction_amended.1
      "what is the average headache severity or moderate details").2.1).mpr (by decide)⟩

/-- C8 counterexample: at a clock reading with a non-zero microsecond field
(14:30:05.123456 of day 20000), the `today` window does not start at exact
midnight and the `yesterday` window does not end at exact 23:59:59, because
`datetime.replace(hour=0, minute=0, second=0)` keeps the microsecond. -/
theorem convert_time_range_not_exact_midnight :
    (convert_time_range (some (TimeRangeVal.period "today"))
        ⟨20000, 14, 30, 5, 123456⟩).start ≠
      some (specMidnight ⟨20000, 14, 30, 5, 123456⟩) ∧
    (convert_time_range (some (TimeRangeVal.period "yesterday"))
        ⟨20000, 14, 30, 5, 123456⟩).stop ≠
      some (specYesterdayEnd ⟨20000, 14, 30, 5, 123456⟩) := by
  constructor
  · decide
  · decide

/-- C8 amended: for `today` the resolver returns start = now with hour,
minute and second zeroed but the microsecond preserved, and end = now; for
`yesterday` it returns the previous day with hour/minute/second set to
0:0:0 resp. 23:59:59, again with now's microsecond preserved.  The start is
exact midnight precisely when the sampled clock value has microsecond 0. -/
theorem convert_time_range_today_yesterday_amended (now : PyDateTime) :
    convert_time_range (some (TimeRangeVal.period "today")) now =
      ⟨some (replaceHMS now 0 0 0), some now⟩ ∧
    convert_time_range (some (TimeRangeVal.period "yesterday")) now =
      ⟨some (replaceHMS (subDays now 1) 0 0 0), some (replaceHMS (subDays now 1) 23 59 59)⟩ ∧
    (replaceHMS now 0 0 0 = specMidnight now ↔ now.microsecond = 0) := by
  refine ⟨by simp [convert_time_range], by simp [convert_time_range], ?_⟩
  constructor
  · intro h
    exact congrArg PyDateTime.microsecond h
  · intro h
    cases now
    simp_all [replaceHMS, specMidnight]

/-- C7: the time-range resolver is deterministic in the pair (token, sampled
clock value) — in this embedding it is a function of both — but the Python
function has no `now` parameter: it samples `datetime.now()` internally, and
that sample flows into the result (the `today` window ends at the sampled
instant), so two calls with the identical token at different wall-clock
instants return different windows. -/
theorem convert_time_range_implicit_clock :
    (∀ now : PyDateTime,
      (convert_time_range (some (TimeRangeVal.period "today")) now).stop = some now) ∧
    convert_time_range (some (TimeRangeVal.period "today")) ⟨20000, 0, 0, 0, 0⟩ ≠
      convert_time_range (some (TimeRangeVal.period "today")) ⟨20001, 0, 0, 0, 0⟩ := by
  constructor
  · intro now
    simp [convert_time_range]
  · decide

/-- C3: `classify_query` lower-cases the question before calling
`_extract_filters`, and every alternative of the team pattern
`\b(LSU|Tigers|[A-Z][a-z]+ [A-Z][a-z]+)\b` requires an uppercase first
letter, so the classification of any question — including ones literally
containing "LSU" — never carries a `team` filter.  The helper itself does
extract the team when given the original-case text (third conjunct, the
repository's own unit-test input). -/
theorem classify_query_team_filter_bug :
    (∀ q : String, (classify_raw q).filters.team = none) ∧
    (classify_raw "What is the average headache severity for LSU players?").filters.team = none ∧
    (extract_filters "show me LSU players with symptoms".toList).team = some "LSU" := by
  have hall : ∀ q : String, (classify_raw q).filters.team = none := by
    intro q
    show ((teamFindall (pyLower q.data)).head?.map String.mk) = none
    have hz : teamFindall (pyLower q.data) = [] :=
      teamScanAux_nil_of_no_upper _ _ _ (pyLower_no_upper q.data)
    rw [hz]
    rfl
  exact ⟨hall, hall _, by decide⟩

theorem determine_intent_mem (ql : List Char) :
    determine_intent ql ∈ ["average", "maximum", "minimum", "count", "list",
      "compare", "trend", "alert", "summary"] := by
  unfold determine_intent
  cases hf : aggregation_keywords.find? (fun p => p.2.any (fun k => kwIn k ql)) with
  | some p =>
    have hp := List.mem_of_find?_eq_some hf
    simp only [aggregation_keywords, List.mem_cons, List.not_mem_nil, or_false] at hp
    rcases hp with rfl | rfl | rfl | rfl | rfl <;> simp
  | none => split_ifs <;> simp

theorem determine_modules_ne_nil (ql : List Char) : determine_modules ql ≠ [] := by
  unfold determine_modules
  by_cases hs : symptom_keywords.any (fun k => kwIn k ql) = true <;>
    by_cases hr : reaction_time_keywords.any (fun k => kwIn k ql) = true <;>
    simp [hs, hr]

theorem determine_modules_cases (ql : List Char) :
    AssessmentType.symptom_checklist ∈ determine_modules ql ∨
      AssessmentType.reaction_time ∈ determine_modules ql := by
  unfold determine_modules
  by_cases hs : symptom_keywords.any (fun k => kwIn k ql) = true <;>
    by_cases hr : reaction_time_keywords.any (fun k => kwIn k ql) = true <;>
    simp [hs, hr]

theorem extract_metrics_ne_nil (ql : List Char) (ms : List AssessmentType)
    (h : AssessmentType.symptom_checklist ∈ ms ∨ AssessmentType.reaction_time ∈ ms) :
    extract_metrics ql ms ≠ [] := by
  have key : ∀ L : List String,
      (if L.any (fun m => occursIn "reaction".toList m.toList) = true then L
        else L ++ ["average_reaction_time"]) ≠ [] := by
    intro L
    by_cases hA : L.any (fun m => occursIn "reaction".toList m.toList) = true
    · rcases List.any_eq_true.mp hA with ⟨x, hx, _⟩
      rw [if_pos hA]
      exact List.ne_nil_of_mem hx
    · rw [if_neg hA]
      simp
  have key2 : ∀ A : List String,
      (if A.isEmpty then ["total_symptom_score", "headache_severity"] else A) ≠ [] := by
    intro A
    by_cases hA : A.isEmpty
    · simp [hA]
    · simp only [hA, if_false, Bool.false_eq_true, reduceIte]
      intro hnil
      rw [hnil] at hA
      exact hA rfl
  unfold extract_metrics
  by_cases hrt : AssessmentType.reaction_time ∈ ms
  · rw [if_pos hrt]
    exact key _
  · rw [if_neg hrt]
    have hs : AssessmentType.symptom_checklist ∈ ms := h.resolve_right hrt
    rw [if_pos hs]
    exact key2 _

/-- C2: the totality claim is broken by the `custom_dates` path.  For a
question that is just a date, `_extract_time_range` returns
`custom_dates` holding `re.findall` tuples, and constructing the pydantic
`QueryClassification` (whose `time_range` is declared
`Optional[Dict[str, str]]`) raises `ValidationError` — first conjunct.  The
well-formedness properties themselves hold for the computed classification
data of every question: intent in the fixed enumeration, non-empty modules
defaulting to both when no keyword matches, non-empty metrics, and
confidence within bounds. -/
theorem classify_query_totality_bug :
    classify_query "01/02/2026" = Except.error "ValidationError" ∧
    ∀ q : String,
      (classify_raw q).intent ∈ ["average", "maximum", "minimum", "count", "list",
        "compare", "trend", "alert", "summary"] ∧
      (classify_raw q).modules ≠ [] ∧
      (symptom_keywords.any (fun k => kwIn k (pyLower q.toList)) = true ∨
        reaction_time_keywords.any (fun k => kwIn k (pyLower q.toList)) = true ∨
        (classify_raw q).modules =
          [AssessmentType.symptom_checklist, AssessmentType.reaction_time]) ∧
      (classify_raw q).metrics ≠ [] ∧
      0 ≤ (classify_raw q).confidence ∧ (classify_raw q).confidence ≤ 1 := by
  refine ⟨by rfl, ?_⟩
  intro q
  refine ⟨determine_intent_mem _, determine_modules_ne_nil _, ?_,
    extract_metrics_ne_nil _ _ (determine_modules_cases _), ?_, ?_⟩
  · by_cases hs : symptom_keywords.any (fun k => kwIn k (pyLower q.toList)) = true
    · exact Or.inl hs
    · by_cases hr : reaction_time_keywords.any (fun k => kwIn k (pyLower q.toList)) = true
      · exact Or.inr (Or.inl hr)
      · right; right
        show determine_modules (pyLower q.data) =
          [AssessmentType.symptom_checklist, AssessmentType.reaction_time]
        have hs' : symptom_keywords.any (fun k => kwIn k (pyLower q.data)) = false := by
          simpa using hs
        have hr' : reaction_time_keywords.any (fun k => kwIn k (pyLower q.data)) = false := by
          simpa using hr
        unfold determine_modules
        simp [hs', hr']
  · show (0 : ℚ) ≤ 8 / 10
    norm_num
  · show (8 : ℚ) / 10 ≤ 1
    norm_num

theorem intent_first_average (ql : List Char)
    (h : (["average", "avg", "mean"].any (fun k => kwIn k ql)) = true) :
    determine_intent ql = "average" := by
  unfold determine_intent aggregation_keywords
  simp only [List.find?_cons, h]

theorem intent_first_maximum (ql : List Char)
    (h0 : (["average", "avg", "mean"].any (fun k => kwIn k ql)) = false)
    (h : (["max", "maximum", "highest", "worst"].any (fun k => kwIn k ql)) = true) :
    determine_intent ql = "maximum" := by
  unfold determine_intent aggregation_keywords
  simp only [List.find?_cons, h0, h]

theorem intent_first_minimum (ql : List Char)
    (h0 : (["average", "avg", "mean"].any (fun k => kwIn k ql)) = false)
    (h1 : (["max", "maximum", "highest", "worst"].any (fun k => kwIn k ql)) = false)
    (h : (["min", "minimum", "lowest", "best"].any (fun k => kwIn k ql)) = true) :
    determine_intent ql = "minimum" := by
  unfold determine_intent aggregation_keywords
  simp only [List.find?_cons, h0, h1, h]

theorem intent_first_count (ql : List Char)
    (h0 : (["average", "avg", "mean"].any (fun k => kwIn k ql)) = false)
    (h1 : (["max", "maximum", "highest", "worst"].any (fun k => kwIn k ql)) = false)
    (h2 : (["min", "minimum", "lowest", "best"].any (fun k => kwIn k ql)) = false)
    (h : (["count", "number", "how many"].any (fun k => kwIn k ql)) = true) :
    determine_intent ql = "count" := by
  unfold determine_intent aggregation_keywords
  simp only [List.find?_cons, h0, h1, h2, h]

theorem intent_first_list (ql : List Char)
    (h0 : (["average", "avg", "mean"].any (fun k => kwIn k ql)) = false)
    (h1 : (["max", "maximum", "highest", "worst"].any (fun k => kwIn k ql)) = false)
    (h2 : (["min", "minimum", "lowest", "best"].any (fun k => kwIn k ql)) = false)
    (h3 : (["count", "number", "how many"].any (fun k => kwIn k ql)) = false)
    (h : (["list", "show", "display", "who"].any (fun k => kwIn k ql)) = true) :
    determine_intent ql = "list" := by
  unfold determine_intent aggregation_keywords
  simp only [List.find?_cons, h0, h1, h2, h3, h]

/-- C4: intent is decided by the first matching entry, in declared order, of
the aggregation table over the lower-cased question, and any aggregation
match takes priority over the secondary compare/trend/alert patterns
(whenever some aggregation keyword matches, the intent is one of the five
aggregation intents); plus the three concrete examples. -/
theorem classify_intent_priority :
    ((classify_raw "what is the average headache score").intent = "average" ∧
      (classify_raw "show me the worst performance").intent = "maximum" ∧
      (classify_raw "list all players with symptoms").intent = "list") ∧
    ∀ q : String,
      ((["average", "avg", "mean"].any (fun k => kwIn k (pyLower q.toList))) = true →
        (classify_raw q).intent = "average") ∧
      ((["average", "avg", "mean"].any (fun k => kwIn k (pyLower q.toList))) = false →
        (["max", "maximum", "highest", "worst"].any (fun k => kwIn k (pyLower q.toList))) = true →
        (classify_raw q).intent = "maximum") ∧
      ((["average", "avg", "mean"].any (fun k => kwIn k (pyLower q.toList))) = false →
        (["max", "maximum", "highest", "worst"].any (fun k => kwIn k (pyLower q.toList))) = false →
        (["min", "minimum", "lowest", "best"].any (fun k => kwIn k (pyLower q.toList))) = true →
        (classify_raw q).intent = "minimum") ∧
      ((["average", "avg", "mean"].any (fun k => kwIn k (pyLower q.toList))) = false →
        (["max", "maximum", "highest", "worst"].any (fun k => kwIn k (pyLower q.toList))) = false →
        (["min", "minimum", "lowest", "best"].any (fun k => kwIn k (pyLower q.toList))) = false →
        (["count", "number", "how many"].any (fun k => kwIn k (pyLower q.toList))) = true →
        (classify_raw q).intent = "count") ∧
      ((["average", "avg", "mean"].any (fun k => kwIn k (pyLower q.toList))) = false →
        (["max", "maximum", "highest", "worst"].any (fun k => kwIn k (pyLower q.toList))) = false →
        (["min", "minimum", "lowest", "best"].any (fun k => kwIn k (pyLower q.toList))) = false →
        (["count", "number", "how many"].any (fun k => kwIn k (pyLower q.toList))) = false →
        (["list", "show", "display", "who"].any (fun k => kwIn k (pyLower q.toList))) = true →
        (classify_raw q).intent = "list") ∧
      ((aggregation_keywords.any (fun p => p.2.any (fun k => kwIn k (pyLower q.toList)))) = true →
        (classify_raw q).intent ∈ ["average", "maximum", "minimum", "count", "list"]) := by
  refine ⟨⟨by decide, by decide, by decide⟩, ?_⟩
  intro q
  refine ⟨?_, ?_, ?_, ?_, ?_, ?_⟩
  · intro h
    exact intent_first_average _ h
  · intro h0 h
    exact intent_first_maximum _ h0 h
  · intro h0 h1 h
    exact intent_first_minimum _ h0 h1 h
  · intro h0 h1 h2 h
    exact intent_first_count _ h0 h1 h2 h
  · intro h0 h1 h2 h3 h
    exact intent_first_list _ h0 h1 h2 h3 h
  · intro hagg
    simp only [List.mem_cons, List.not_mem_nil, or_false]
    by_cases b0 : (["average", "avg", "mean"].any (fun k => kwIn k (pyLower q.toList))) = true
    · exact Or.inl (intent_first_average _ b0)
    · have b0' := Bool.eq_false_iff.mpr b0
      by_cases b1 : (["max", "maximum", "highest", "worst"].any
          (fun k => kwIn k (pyLower q.toList))) = true
      · exact Or.inr (Or.inl (intent_first_maximum _ b0' b1))
      · have b1' := Bool.eq_false_iff.mpr b1
        by_cases b2 : (["min", "minimum", "lowest", "best"].any
            (fun k => kwIn k (pyLower q.toList))) = true
        · exact Or.inr (Or.inr (Or.inl (intent_first_minimum _ b0' b1' b2)))
        · have b2' := Bool.eq_false_iff.mpr b2
          by_cases b3 : (["count", "number", "how many"].any
              (fun k => kwIn k (pyLower q.toList))) = true
          · exact Or.inr (Or.inr (Or.inr (Or.inl (intent_first_count _ b0' b1' b2' b3))))
          · have b3' := Bool.eq_false_iff.mpr b3
            by_cases b4 : (["list", "show", "display", "who"].any
                (fun k => kwIn k (pyLower q.toList))) = true
            · exact Or.inr (Or.inr (Or.inr (Or.inr
                (intent_first_list _ b0' b1' b2' b3' b4))))
            · exfalso
              have b4' := Bool.eq_false_iff.mpr b4
              rw [show aggregation_keywords.any
                  (fun p => p.2.any (fun k => kwIn k (pyLower q.toList))) = false by
                simp only [aggregation_keywords, List.any_cons, List.any_nil,
                  b0', b1', b2', b3', b4']
                rfl] at hagg
              cases hagg

theorem classify_intent_priority_witness :
    (["average", "avg", "mean"].any (fun k => kwIn k (pyLower "avg score please".toList))) = true ∧
    (classify_raw "avg score please").intent = "average" :=
  ⟨by decide, (classify_intent_priority.2 "avg score please").1 (by decide)⟩

/-- C5: on non-empty input the symptom aggregator returns the unweighted
arithmetic means of `total_symptom_score` and `headache_severity` (sum over
count, no rounding), the maximum of `total_symptom_score` (an attained upper
bound), the number of distinct `patient_id` values, and the record count; on
empty input it returns the empty dictionary instead of raising. -/
theorem calculate_symptom_metrics_spec :
    calculate_symptom_metrics [] = none ∧
    ∀ data : List SymptomRow, data ≠ [] →
      ∃ m, calculate_symptom_metrics data = some m ∧
        m.avg_total_symptom_score =
          (data.map (fun r => r.total_symptom_score)).sum / (data.length : ℚ) ∧
        m.avg_headache_severity =
          (data.map (fun r => r.headache_severity)).sum / (data.length : ℚ) ∧
        (∀ r ∈ data, r.total_symptom_score ≤ m.max_total_symptom_score) ∧
        (∃ r ∈ data, m.max_total_symptom_score = r.total_symptom_score) ∧
        m.patient_count = (data.map (fun r => r.patient_id)).toFinset.card ∧
        m.assessment_count = data.length := by
  refine ⟨rfl, ?_⟩
  intro data hne
  cases data with
  | nil => exact absurd rfl hne
  | cons d ds =>
    refine ⟨_, rfl, ?_, ?_, ?_, ?_, ?_, rfl⟩
    · show ((d :: ds).map (fun r => r.total_symptom_score)).sum /
          ((((d :: ds).map (fun r => r.total_symptom_score)).length : ℕ) : ℚ) = _
      rw [List.length_map]
    · show ((d :: ds).map (fun r => r.headache_severity)).sum /
          ((((d :: ds).map (fun r => r.headache_severity)).length : ℕ) : ℚ) = _
      rw [List.length_map]
    · intro r hr
      show r.total_symptom_score ≤ pyMax ((d :: ds).map (fun r => r.total_symptom_score))
      have : r.total_symptom_score ∈ (d :: ds).map (fun r => r.total_symptom_score) :=
        List.mem_map_of_mem _ hr
      simp only [List.map_cons, pyMax] at this ⊢
      exact foldl_max_le _ _ _ this
    · show ∃ r ∈ d :: ds, pyMax ((d :: ds).map (fun r => r.total_symptom_score)) =
        r.total_symptom_score
      have hmem : pyMax ((d :: ds).map (fun r => r.total_symptom_score)) ∈
          (d :: ds).map (fun r => r.total_symptom_score) := by
        simp only [List.map_cons, pyMax]
        exact foldl_max_mem _ _
      rcases List.mem_map.mp hmem with ⟨r, hr, he⟩
      exact ⟨r, hr, he.symm⟩
    · exact (List.card_toFinset _).symm

theorem calculate_symptom_metrics_spec_witness :
    demoSymptomRows ≠ [] ∧
    ∃ m, calculate_symptom_metrics demoSymptomRows = some m ∧
      m.avg_total_symptom_score =
        (demoSymptomRows.map (fun r => r.total_symptom_score)).sum /
          (demoSymptomRows.length : ℚ) ∧
      m.avg_headache_severity =
        (demoSymptomRows.map (fun r => r.headache_severity)).sum /
          (demoSymptomRows.length : ℚ) ∧
      (∀ r ∈ demoSymptomRows, r.total_symptom_score ≤ m.max_total_symptom_score) ∧
      (∃ r ∈ demoSymptomRows, m.max_total_symptom_score = r.total_symptom_score) ∧
      m.patient_count = (demoSymptomRows.map (fun r => r.patient_id)).toFinset.card ∧
      m.assessment_count = demoSymptomRows.length :=
  ⟨by decide, calculate_symptom_metrics_spec.2 demoSymptomRows (by decide)⟩

theorem process_query_ok_parts
    (fetchS : Option String → Option PyDateTime → Option PyDateTime → List SymptomRow)
    (fetchR : Option String → Option PyDateTime → Option PyDateTime → List ReactionRow)
    (now : PyDateTime) (q : String) (uid tid : Option String) (out : ProcessResult)
    (hok : process_query fetchS fetchR now q uid tid = Except.ok out) :
    out.source_modules =
      (symptomResults (classify_raw q).modules
          (fetchS (pyOrStr tid (classify_raw q).filters.team)
            (convert_time_range (classify_raw q).time_range now).start
            (convert_time_range (classify_raw q).time_range now).stop) ++
        reactionResults (classify_raw q).modules
          (fetchR (pyOrStr tid (classify_raw q).filters.team)
            (convert_time_range (classify_raw q).time_range now).start
            (convert_time_range (classify_raw q).time_range now).stop)).map moduleName ∧
    out.answer = generate_response (classify_raw q)
      (symptomResults (classify_raw q).modules
          (fetchS (pyOrStr tid (classify_raw q).filters.team)
            (convert_time_range (classify_raw q).time_range now).start
            (convert_time_range (classify_raw q).time_range now).stop) ++
        reactionResults (classify_raw q).modules
          (fetchR (pyOrStr tid (classify_raw q).filters.team)
            (convert_time_range (classify_raw q).time_range now).start
            (convert_time_range (classify_raw q).time_range now).stop)) ∧
    out.confidence = (classify_raw q).confidence := by
  cases hcq : classify_query q with
  | error e =>
    unfold process_query at hok
    rw [hcq] at hok
    exact Except.noConfusion hok
  | ok cls =>
    obtain rfl := classify_query_ok_eq q cls hcq
    unfold process_query at hok
    rw [hcq] at hok
    have hpq := Except.ok.inj hok
    subst hpq
    exact ⟨rfl, rfl, rfl⟩

/-- C6: a module appears in `source_modules` exactly when it was selected by
the classification and its gateway fetch returned at least one record (so
every listed module contributed a non-empty aggregate); and when the fetch
of a module comes back empty, its sentence template does not occur in the
answer — the module is silently dropped, not reported as a zero-value
result. -/
theorem source_modules_nonempty_invariant
    (fetchS : Option String → Option PyDateTime → Option PyDateTime → List SymptomRow)
    (fetchR : Option String → Option PyDateTime → Option PyDateTime → List ReactionRow)
    (now : PyDateTime) (q : String) (uid tid : Option String) (out : ProcessResult)
    (hok : process_query fetchS fetchR now q uid tid = Except.ok out) :
    ("symptom_checklist" ∈ out.source_modules ↔
      (AssessmentType.symptom_checklist ∈ (classify_raw q).modules ∧
        fetchS (pyOrStr tid (classify_raw q).filters.team)
          (convert_time_range (classify_raw q).time_range now).start
          (convert_time_range (classify_raw q).time_range now).stop ≠ [])) ∧
    ("reaction_time" ∈ out.source_modules ↔
      (AssessmentType.reaction_time ∈ (classify_raw q).modules ∧
        fetchR (pyOrStr tid (classify_raw q).filters.team)
          (convert_time_range (classify_raw q).time_range now).start
          (convert_time_range (classify_raw q).time_range now).stop ≠ [])) ∧
    (fetchS (pyOrStr tid (classify_raw q).filters.team)
        (convert_time_range (classify_raw q).time_range now).start
        (convert_time_range (classify_raw q).time_range now).stop = [] →
      occursIn "symptom assessments".toList out.answer = false) ∧
    (fetchR (pyOrStr tid (classify_raw q).filters.team)
        (convert_time_range (classify_raw q).time_range now).start
        (convert_time_range (classify_raw q).time_range now).stop = [] →
      occursIn "reaction time tests".toList out.answer = false) := by
  obtain ⟨hsm, hans, _⟩ := process_query_ok_parts fetchS fetchR now q uid tid out hok
  set sd := fetchS (pyOrStr tid (classify_raw q).filters.team)
    (convert_time_range (classify_raw q).time_range now).start
    (convert_time_range (classify_raw q).time_range now).stop with hsdv
  set rd := fetchR (pyOrStr tid (classify_raw q).filters.team)
    (convert_time_range (classify_raw q).time_range now).start
    (convert_time_range (classify_raw q).time_range now).stop with hrdv
  refine ⟨?_, ?_, ?_, ?_⟩
  · rw [hsm]
    rcases symptomResults_shape (classify_raw q).modules sd with ⟨hA, hA2⟩ | ⟨m, hA, hm, hne⟩
    · rw [hA]
      rcases reactionResults_shape (classify_raw q).modules rd with ⟨hB, _⟩ | ⟨m2, hB, _, _⟩ <;>
        rw [hB] <;> simp [moduleName] <;> intro hmem <;> rcases hA2 with h | h <;> simp_all
    · rw [hA]
      simp [moduleName, hm, hne]
  · rw [hsm]
    rcases reactionResults_shape (classify_raw q).modules rd with ⟨hB, hB2⟩ | ⟨m2, hB, hm, hne⟩
    · rw [hB]
      rcases symptomResults_shape (classify_raw q).modules sd with ⟨hA, _⟩ | ⟨m, hA, _, _⟩ <;>
        rw [hA] <;> simp [moduleName] <;> intro hmem <;> rcases hB2 with h | h <;> simp_all
    · rw [hB]
      simp [moduleName, hm, hne]
  · intro hnil
    rw [hans]
    have hA : symptomResults (classify_raw q).modules sd = [] := by
      rcases symptomResults_shape (classify_raw q).modules sd with ⟨hA, _⟩ | ⟨m, _, _, hne⟩
      · exact hA
      · exact absurd hnil hne
    rw [hA, List.nil_append]
    apply no_symptom_marker_reaction_answer
    rcases reactionResults_shape (classify_raw q).modules rd with ⟨hB, _⟩ | ⟨m2, hB, _, _⟩
    · exact Or.inl hB
    · exact Or.inr ⟨m2, rd.length, hB⟩
  · intro hnil
    rw [hans]
    have hB : reactionResults (classify_raw q).modules rd = [] := by
      rcases reactionResults_shape (classify_raw q).modules rd with ⟨hB, _⟩ | ⟨m2, _, _, hne⟩
      · exact hB
      · exact absurd hnil hne
    rw [hB, List.append_nil]
    apply no_reaction_marker_symptom_answer
    rcases symptomResults_shape (classify_raw q).modules sd with ⟨hA, _⟩ | ⟨m, hA, _, _⟩
    · exact Or.inl hA
    · exact Or.inr ⟨m, sd.length, hA⟩

/-- C1: for the question "What is the average headache severity for LSU
players?" with the gateway returning exactly the two symptom records
(total scores 35 and 78, headache severities 2 and 4), the orchestrator
returns `source_modules = ["symptom_checklist"]`, an answer containing
"56.5" (the mean total score) and "3.0" (the mean headache severity), and
confidence 0.8.  The reaction-time module is not selected by this question,
so no constraint on `fetchR` is needed. -/
theorem process_query_lsu_scenario
    (fetchS : Option String → Option PyDateTime → Option PyDateTime → List SymptomRow)
    (fetchR : Option String → Option PyDateTime → Option PyDateTime → List ReactionRow)
    (now : PyDateTime) (p1 p2 : String)
    (hfs : fetchS none none none = [⟨p1, 35, 2⟩, ⟨p2, 78, 4⟩]) :
    ∃ out, process_query fetchS fetchR now
        "What is the average headache severity for LSU players?" none none = Except.ok out ∧
      out.source_modules = ["symptom_checklist"] ∧
      occursIn "56.5".toList out.answer = true ∧
      occursIn "3.0".toList out.answer = true ∧
      out.confidence = 8 / 10 := by
  have hcq : classify_query "What is the average headache severity for LSU players?" =
      Except.ok lsuCls := by rfl
  have hm : calculate_symptom_metrics [⟨p1, 35, 2⟩, ⟨p2, 78, 4⟩] =
      some (lsuMetrics p1 p2) := by
    unfold calculate_symptom_metrics lsuMetrics
    simp only [List.map_cons, List.map_nil, List.sum_cons, List.sum_nil, List.length_cons,
      List.length_nil, pyMax, List.foldl_cons, List.foldl_nil, Option.some.injEq,
      SymptomMetrics.mk.injEq]
    refine ⟨by norm_num, ?_, by norm_num, trivial, trivial⟩
    rw [max_eq_right (by norm_num)]
  have hsr : symptomResults lsuCls.modules [⟨p1, 35, 2⟩, ⟨p2, 78, 4⟩] =
      [ModuleResult.symptom (lsuMetrics p1 p2) 2] := by
    unfold symptomResults
    rw [if_pos (show AssessmentType.symptom_checklist ∈ lsuCls.modules by decide), hm]
    rfl
  have hfs2 : fetchS (pyOrStr none lsuCls.filters.team)
      (convert_time_range lsuCls.time_range now).start
      (convert_time_range lsuCls.time_range now).stop = [⟨p1, 35, 2⟩, ⟨p2, 78, 4⟩] := hfs
  have hrr : reactionResults lsuCls.modules (fetchR (pyOrStr none lsuCls.filters.team)
      (convert_time_range lsuCls.time_range now).start
      (convert_time_range lsuCls.time_range now).stop) = [] := rfl
  unfold process_query
  simp only [hcq]
  rw [hfs2, hsr, hrr, List.append_nil]
  refine ⟨_, rfl, rfl, ?_, ?_, rfl⟩
  · show occursIn "56.5".toList
      (generate_response lsuCls [ModuleResult.symptom (lsuMetrics p1 p2) 2]) = true
    rw [generate_response_one_result, if_neg (show ¬lsuCls.intent = "alert" by decide)]
    show occursIn "56.5".toList (symptomSentence ⟨113 / 2, 78, 3, 0, 2⟩ 2) = true
    rfl
  · show occursIn "3.0".toList
      (generate_response lsuCls [ModuleResult.symptom (lsuMetrics p1 p2) 2]) = true
    rw [generate_response_one_result, if_neg (show ¬lsuCls.intent = "alert" by decide)]
    show occursIn "3.0".toList (symptomSentence ⟨113 / 2, 78, 3, 0, 2⟩ 2) = true
    rfl

theorem process_query_lsu_scenario_witness :
    ∃ out, process_query (fun _ _ _ => [⟨"P001", 35, 2⟩, ⟨"P002", 78, 4⟩])
        (fun _ _ _ => []) ⟨20000, 12, 0, 0, 0⟩
        "What is the average headache severity for LSU players?" none none = Except.ok out ∧
      out.source_modules = ["symptom_checklist"] ∧
      occursIn "56.5".toList out.answer = true ∧
      occursIn "3.0".toList out.answer = true ∧
      out.confidence = 8 / 10 :=
  process_query_lsu_scenario (fun _ _ _ => [⟨"P001", 35, 2⟩, ⟨"P002", 78, 4⟩])
    (fun _ _ _ => []) ⟨20000, 12, 0, 0, 0⟩ "P001" "P002" rfl

theorem source_modules_nonempty_invariant_witness :
    occursIn "symptom assessments".toList demoOut.answer = false :=
  (source_modules_nonempty_invariant (fun _ _ _ => []) (fun _ _ _ => [])
    ⟨20000, 12, 0, 0, 0⟩ "test" none none demoOut (by rfl)).2.2.1 (by rfl)
